import Mathlib

/-!
Verification of the Exercise Form Analysis Engine of the AIthlete backend
(`ml/pose_estimation/pose_model.py`, class `PoseEstimationModel`).

The engine's decision logic is shallowly embedded here:

* angle dictionaries (`Dict[str, float]`) become association lists
  `AngleSet := List (String × ℚ)` with first-match lookup; the code only
  compares angles against integer cutoffs and averages them, so `ℚ`
  captures the arithmetic exactly (no float rounding is involved in the
  decision logic for the inputs examined here);
* the geometric routine `calculate_angle`, which genuinely lives in real
  trigonometry (`np.arctan2`), is embedded over `ℝ`, with
  `np.arctan2 y x` rendered as `Complex.arg ⟨x, y⟩` — both lie in
  `(-π, π]` and both send the origin to `0`;
* the video / MediaPipe boundary (`analyze_pose_enhanced`'s conversion
  from a frame to landmarks and then to the angle dictionary via
  `calculate_all_angles`) is abstracted into an `Option AngleSet`
  argument: `none` models "no pose landmarks detected", `some angles`
  models a detected pose whose computed angle dictionary is `angles`.
-/

/-- A threshold triple `{'min': …, 'max': …, 'optimal': …}` from the
exercise database. -/
structure Threshold where
  lo : ℚ
  hi : ℚ
  optimal : ℚ
deriving DecidableEq, Repr

/-- One entry of `self.exercise_database`: key angles, thresholds,
alignment checks, movement pattern, primary muscles. -/
structure ExerciseConfig where
  key_angles : List String
  thresholds : List (String × Threshold)
  alignment_checks : List String
  movement_pattern : String
  primary_muscles : List String
deriving DecidableEq, Repr

/-- One entry of `self.exercise_patterns`. -/
structure DetectionPattern where
  primary_indicators : List String
  secondary_indicators : List String
deriving DecidableEq, Repr

/-- A Python `Dict[str, float]` of joint angles, as an association list
(keys are unique in every dictionary the code builds; lookup takes the
first match). -/
abbrev AngleSet : Type := List (String × ℚ)

/-- `k in angles` / `angles[k]` combined: first-match association lookup. -/
def lookupAngle (angles : AngleSet) (k : String) : Option ℚ :=
  match angles with
  | [] => none
  | (k', v) :: rest => if k' = k then some v else lookupAngle rest k

/-- Python dictionary assignment `d[k] = v`: overwrite the existing entry
in place if the key is present, otherwise append. -/
def dictInsert (d : AngleSet) (k : String) (v : ℚ) : AngleSet :=
  match lookupAngle d k with
  | some _ => d.map (fun p => if p.1 = k then (k, v) else p)
  | none => d ++ [(k, v)]

/-- `self.exercise_database` (pose_model.py, lines 20–131), in declaration
order, with every threshold transcribed. -/
def exercise_database : List (String × ExerciseConfig) :=
  [("squat",
    { key_angles := ["knee_angle", "hip_angle", "back_angle"],
      thresholds := [("knee_angle", ⟨70, 110, 90⟩), ("hip_angle", ⟨45, 90, 70⟩),
                     ("back_angle", ⟨160, 180, 170⟩)],
      alignment_checks := ["knee_alignment", "back_straight"],
      movement_pattern := "vertical",
      primary_muscles := ["quadriceps", "glutes", "hamstrings"] }),
   ("pushup",
    { key_angles := ["elbow_angle", "shoulder_angle", "back_angle"],
      thresholds := [("elbow_angle", ⟨80, 100, 90⟩), ("shoulder_angle", ⟨160, 180, 170⟩),
                     ("back_angle", ⟨160, 180, 175⟩)],
      alignment_checks := ["body_straight", "elbow_position"],
      movement_pattern := "horizontal",
      primary_muscles := ["chest", "triceps", "shoulders"] }),
   ("lunge",
    { key_angles := ["front_knee_angle", "back_knee_angle", "hip_angle"],
      thresholds := [("front_knee_angle", ⟨80, 110, 90⟩), ("back_knee_angle", ⟨80, 110, 90⟩),
                     ("hip_angle", ⟨45, 90, 70⟩)],
      alignment_checks := ["knee_alignment", "hip_level"],
      movement_pattern := "forward",
      primary_muscles := ["quadriceps", "glutes", "hamstrings"] }),
   ("bicep_curl",
    { key_angles := ["elbow_angle", "shoulder_angle", "wrist_angle"],
      thresholds := [("elbow_angle", ⟨30, 90, 60⟩), ("shoulder_angle", ⟨160, 180, 170⟩),
                     ("wrist_angle", ⟨160, 180, 170⟩)],
      alignment_checks := ["elbow_fixed", "wrist_straight"],
      movement_pattern := "isolated",
      primary_muscles := ["biceps", "forearms"] }),
   ("plank",
    { key_angles := ["shoulder_angle", "hip_angle", "ankle_angle"],
      thresholds := [("shoulder_angle", ⟨160, 180, 170⟩), ("hip_angle", ⟨160, 180, 170⟩),
                     ("ankle_angle", ⟨160, 180, 170⟩)],
      alignment_checks := ["body_straight", "core_engaged"],
      movement_pattern := "static",
      primary_muscles := ["core", "shoulders", "glutes"] }),
   ("deadlift",
    { key_angles := ["hip_angle", "knee_angle", "back_angle"],
      thresholds := [("hip_angle", ⟨30, 60, 45⟩), ("knee_angle", ⟨100, 140, 120⟩),
                     ("back_angle", ⟨160, 180, 170⟩)],
      alignment_checks := ["back_straight", "bar_path"],
      movement_pattern := "hinge",
      primary_muscles := ["hamstrings", "glutes", "lower_back"] }),
   ("overhead_press",
    { key_angles := ["shoulder_angle", "elbow_angle", "wrist_angle"],
      thresholds := [("shoulder_angle", ⟨160, 180, 170⟩), ("elbow_angle", ⟨80, 100, 90⟩),
                     ("wrist_angle", ⟨160, 180, 170⟩)],
      alignment_checks := ["shoulder_alignment", "wrist_straight"],
      movement_pattern := "vertical",
      primary_muscles := ["shoulders", "triceps"] }),
   ("row",
    { key_angles := ["shoulder_angle", "elbow_angle", "back_angle"],
      thresholds := [("shoulder_angle", ⟨45, 90, 70⟩), ("elbow_angle", ⟨80, 120, 100⟩),
                     ("back_angle", ⟨160, 180, 170⟩)],
      alignment_checks := ["back_straight", "shoulder_blades"],
      movement_pattern := "horizontal",
      primary_muscles := ["back", "biceps", "rear_deltoids"] }),
   ("burpee",
    { key_angles := ["knee_angle", "hip_angle", "shoulder_angle"],
      thresholds := [("knee_angle", ⟨70, 110, 90⟩), ("hip_angle", ⟨45, 90, 70⟩),
                     ("shoulder_angle", ⟨160, 180, 170⟩)],
      alignment_checks := ["full_range", "explosive_movement"],
      movement_pattern := "compound",
      primary_muscles := ["full_body"] }),
   ("mountain_climber",
    { key_angles := ["shoulder_angle", "hip_angle", "knee_angle"],
      thresholds := [("shoulder_angle", ⟨160, 180, 170⟩), ("hip_angle", ⟨160, 180, 170⟩),
                     ("knee_angle", ⟨80, 120, 100⟩)],
      alignment_checks := ["core_stable", "alternating_legs"],
      movement_pattern := "dynamic",
      primary_muscles := ["core", "shoulders", "hip_flexors"] })]

/-- `self.exercise_patterns` (pose_model.py, lines 134–175), in
declaration order. -/
def exercise_patterns : List (String × DetectionPattern) :=
  [("squat", ⟨["knee_bend", "hip_drop"], ["vertical_movement", "feet_shoulder_width"]⟩),
   ("pushup", ⟨["horizontal_position", "arm_bend"], ["body_straight", "elbow_tuck"]⟩),
   ("lunge", ⟨["forward_step", "knee_bend"], ["hip_drop", "back_knee_low"]⟩),
   ("bicep_curl", ⟨["arm_curl", "elbow_fixed"], ["wrist_straight", "shoulder_stable"]⟩),
   ("plank", ⟨["static_position", "body_straight"], ["core_engaged", "shoulder_stable"]⟩),
   ("deadlift", ⟨["hip_hinge", "back_straight"], ["knee_bend", "bar_path"]⟩),
   ("overhead_press", ⟨["arm_extension", "shoulder_press"], ["wrist_straight", "core_stable"]⟩),
   ("row", ⟨["arm_pull", "shoulder_blade_squeeze"], ["back_straight", "elbow_bend"]⟩),
   ("burpee", ⟨["squat_drop", "pushup", "jump"], ["full_range", "explosive"]⟩),
   ("mountain_climber", ⟨["alternating_legs", "core_stable"], ["shoulder_stable", "hip_movement"]⟩)]

/-- The five indicator kinds that `detect_exercise_advanced` actually
evaluates (pose_model.py, lines 286–310), in code order.  Each entry is
(indicator name, required angle key, pass test):
`knee_bend` ⇔ `knee_angle < 120`; `hip_drop` ⇔ `hip_angle < 90`;
`horizontal_position` ⇔ `shoulder_angle > 160`; `arm_bend` ⇔
`elbow_angle < 120`; `static_position` ⇔ `back_angle > 160`. -/
def indicatorDefs : List (String × String × (ℚ → Bool)) :=
  [("knee_bend", "knee_angle", fun v => decide (v < 120)),
   ("hip_drop", "hip_angle", fun v => decide (v < 90)),
   ("horizontal_position", "shoulder_angle", fun v => decide (v > 160)),
   ("arm_bend", "elbow_angle", fun v => decide (v < 120)),
   ("static_position", "back_angle", fun v => decide (v > 160))]

/-- One `if '<indicator>' in pattern['primary_indicators']: …` block of
`detect_exercise_advanced`: when the indicator kind occurs in the
pattern, `total_checks` is incremented unconditionally, and `score` is
incremented only when the required angle is present and passes.  The
Python `score` is a float incremented by exactly `1.0`, so it is always
a small natural number; both counters are therefore carried as `ℕ` and
cast to `ℚ` at the division in `detect_scores`. -/
def scoreStep (angles : AngleSet) (pattern : DetectionPattern)
    (acc : ℕ × ℕ) (d : String × String × (ℚ → Bool)) : ℕ × ℕ :=
  if pattern.primary_indicators.contains d.1 then
    ((if (lookupAngle angles d.2.1).any d.2.2 then acc.1 + 1 else acc.1), acc.2 + 1)
  else acc

/-- The `(score, total_checks)` pair accumulated for one exercise by the
five indicator blocks of `detect_exercise_advanced`. -/
def scoreExercise (angles : AngleSet) (pattern : DetectionPattern) : ℕ × ℕ :=
  indicatorDefs.foldl (scoreStep angles pattern) (0, 0)

/-- `exercise_scores` as built by `detect_exercise_advanced` (lines
281–314): an exercise gets the entry `score / total_checks` when
`total_checks > 0`, and no entry at all otherwise. -/
def detect_scores (angles : AngleSet) : List (String × ℚ) :=
  exercise_patterns.filterMap (fun ep =>
    let st := scoreExercise angles ep.2
    if st.2 > 0 then some (ep.1, (st.1 : ℚ) / (st.2 : ℚ)) else none)

/-- One comparison step of Python's `max(..., key=...)`: the candidate
replaces the current best only when its key is strictly greater, so the
earliest element attaining the maximum wins. -/
def maxStep (best y : String × ℚ) : String × ℚ :=
  if y.2 > best.2 then y else best

/-- `max(exercise_scores, key=exercise_scores.get)` on a nonempty
dictionary: Python's `max` returns the first element attaining the
maximum, so ties keep the earlier (declaration-order) entry. -/
def firstMax (x : String × ℚ) (xs : List (String × ℚ)) : String × ℚ :=
  xs.foldl maxStep x

/-- The scoring half of `detect_exercise_advanced` (lines 278–325), as a
function of the computed angle dictionary: the best-scoring exercise is
returned when its confidence exceeds 0.6, else `("unknown", 0.0)`. -/
def detect_exercise (angles : AngleSet) : String × ℚ :=
  match detect_scores angles with
  | [] => ("unknown", 0)
  | x :: xs =>
    let best := firstMax x xs
    if best.2 > 0.6 then best else ("unknown", 0)

/-- First-match lookup in the exercise database
(`exercise in self.exercise_database` / `self.exercise_database[exercise]`). -/
def lookupConfig (exercise : String) : Option ExerciseConfig :=
  match exercise_database.find? (fun p => p.1 = exercise) with
  | some p => some p.2
  | none => none

/-- Capitalize the first character of a word (the inputs are lowercase
ASCII words, for which Python's `str.title()` does exactly this). -/
def capitalizeWord (w : String) : String :=
  match w.data with
  | [] => ""
  | c :: cs => String.mk (c.toUpper :: cs)

/-- `angle_name.replace('_', ' ').title()` for the snake_case lowercase
angle names occurring in the database. -/
def titleOfSnake (s : String) : String :=
  String.intercalate " " (((s.replace "_" " ").splitOn " ").map capitalizeWord)

/-- The per-key-angle threshold pass of `check_form_generic`
(pose_model.py, lines 337–350), one key angle at a time; feedback is
appended in profile-declared order. -/
def angleFeedback (angles : AngleSet) (cfg : ExerciseConfig)
    (fb : List String) (angle_name : String) : List String :=
  match lookupAngle angles angle_name with
  | none => fb
  | some v =>
    match (cfg.thresholds.find? (fun p => p.1 = angle_name)).map Prod.snd with
    | none => fb
    | some th =>
      if v < th.lo then fb ++ [titleOfSnake angle_name ++ " too small - increase range"]
      else if v > th.hi then fb ++ [titleOfSnake angle_name ++ " too large - decrease range"]
      else if |v - th.optimal| > 10 then
        fb ++ ["Adjust " ++ titleOfSnake angle_name ++ " for optimal form"]
      else fb

/-- The alignment pass of `check_form_generic` (lines 353–367): the
`if/elif` chain over one alignment-check identifier. -/
def alignmentFeedback (angles : AngleSet)
    (fb : List String) (check : String) : List String :=
  if check = "back_straight" ∧ (lookupAngle angles "back_angle").isSome then
    (if (lookupAngle angles "back_angle").any (fun v => decide (v < 160)) then
      fb ++ ["Keep your back straight"] else fb)
  else if check = "body_straight" then
    (if (lookupAngle angles "shoulder_angle").any (fun v => decide (v < 160)) then
      fb ++ ["Keep your body in a straight line"] else fb)
  else if check = "knee_alignment" then
    fb ++ ["Ensure knees are aligned with your feet"]
  else if check = "elbow_fixed" then
    fb ++ ["Keep your elbows in a fixed position"]
  else fb

/-- `check_form_generic` (pose_model.py, lines 327–369). -/
def check_form_generic (exercise : String) (angles : AngleSet) : List String :=
  match lookupConfig exercise with
  | none => ["Exercise not in database"]
  | some cfg =>
    let fb := cfg.key_angles.foldl (angleFeedback angles cfg) []
    cfg.alignment_checks.foldl (alignmentFeedback angles) fb

/-- The status rule of `analyze_pose_enhanced` (line 407):
`"correct" if len(feedback) == 0 else "incorrect"`. -/
def statusOf (feedback : List String) : String :=
  if feedback.length = 0 then "correct" else "incorrect"

/-- `list(self.exercise_database.keys())`. -/
def supported_exercises : List String := exercise_database.map Prod.fst

/-- The result dictionary of `analyze_pose_enhanced`, without the
wall-clock `processing_time` field (real time is outside the embedding). -/
structure AnalysisResult where
  exercise : String
  status : String
  feedback : List String
  confidence : ℚ
  angles : AngleSet
  supported : List String
deriving DecidableEq

/-- `analyze_pose_enhanced` (pose_model.py, lines 371–417) from the
landmark boundary onward: `none` models `not results.pose_landmarks`,
`some angles` models detected landmarks whose `calculate_all_angles`
dictionary is `angles` (the code computes that dictionary twice, inside
`detect_exercise_advanced` and again at line 398, with the same result). -/
def analyze_pose_enhanced (pose : Option AngleSet) : AnalysisResult :=
  match pose with
  | none =>
    { exercise := "unknown", status := "no_pose_detected",
      feedback := ["No pose detected - please ensure you are visible in the camera"],
      confidence := 0, angles := [], supported := supported_exercises }
  | some angles =>
    let det := detect_exercise angles
    let feedback :=
      if det.1 ≠ "unknown" then check_form_generic det.1 angles
      else ["Exercise not recognized. Try a different position or exercise."]
    { exercise := det.1, status := statusOf feedback, feedback := feedback,
      confidence := det.2, angles := angles, supported := supported_exercises }

/-- The bilateral joints averaged at pose_model.py, lines 258–268, in
code order: (left key, right key, canonical key). -/
def bilateralJoints : List (String × String × String) :=
  [("left_knee_angle", "right_knee_angle", "knee_angle"),
   ("left_hip_angle", "right_hip_angle", "hip_angle"),
   ("left_back_angle", "right_back_angle", "back_angle"),
   ("left_elbow_angle", "right_elbow_angle", "elbow_angle"),
   ("left_shoulder_angle", "right_shoulder_angle", "shoulder_angle")]

/-- One averaging statement of `calculate_all_angles`: when both side
angles are present, the canonical key is assigned their mean; otherwise
the dictionary is left unchanged. -/
def aggStep (d : AngleSet) (j : String × String × String) : AngleSet :=
  match lookupAngle d j.1, lookupAngle d j.2.1 with
  | some l, some r => dictInsert d j.2.2 ((l + r) / 2)
  | _, _ => d

/-- The bilateral averaging block of `calculate_all_angles`
(pose_model.py, lines 258–268), applied to the per-side angle
dictionary built earlier in that function. -/
def aggregate_bilateral (d : AngleSet) : AngleSet :=
  bilateralJoints.foldl aggStep d

/-- `np.arctan2(y, x)`: the angle of the vector `(x, y)`, in `(-π, π]`,
with `atan2 0 0 = 0` — exactly the convention of `Complex.arg`. -/
noncomputable def atan2 (y x : ℝ) : ℝ := Complex.arg ⟨x, y⟩

/-- The intermediate value `angle = np.abs(radians * 180.0 / np.pi)` of
`calculate_angle` (pose_model.py, lines 183–184), where `radians` is the
difference of the two `arctan2` calls. -/
noncomputable def rawAngleDeg (a b c : ℝ × ℝ) : ℝ :=
  |(atan2 (c.2 - b.2) (c.1 - b.1) - atan2 (a.2 - b.2) (a.1 - b.1)) * 180 / Real.pi|

/-- `calculate_angle` (pose_model.py, lines 177–189): the raw degree
value, folded over 180 as `360 - angle` when it exceeds 180. -/
noncomputable def calculate_angle (a b c : ℝ × ℝ) : ℝ :=
  if rawAngleDeg a b c > 180 then 360 - rawAngleDeg a b c else rawAngleDeg a b c

/-- The spec's reference squat angle dictionary:
`{knee_angle: 90, hip_angle: 70, back_angle: 170}`. -/
def squatAngles : AngleSet := [("knee_angle", 90), ("hip_angle", 70), ("back_angle", 170)]

/-- An angle dictionary on which `squat` and `lunge` tie at score 1. -/
def kneeHipAngles : AngleSet := [("knee_angle", 90), ("hip_angle", 70)]

/-- An angle dictionary carrying only one side of the knee joint. -/
def leftKneeOnly : AngleSet := [("left_knee_angle", 80)]

/-- The score formula as the SPEC states it (for comparison with the
code's `scoreExercise`): an indicator whose required angle is absent
from the AngleSet is excluded from both the numerator and the
denominator, the score is passed/evaluated, and 0 when no indicator was
evaluable. -/
def specScoreExercise (angles : AngleSet) (pattern : DetectionPattern) : ℚ :=
  let evaluated := indicatorDefs.filter (fun d =>
    pattern.primary_indicators.contains d.1 && (lookupAngle angles d.2.1).isSome)
  let passed := evaluated.filter (fun d => (lookupAngle angles d.2.1).any d.2.2)
  if evaluated.length = 0 then 0
  else (passed.length : ℚ) / (evaluated.length : ℚ)

lemma atan2_le_pi (y x : ℝ) : atan2 y x ≤ Real.pi := Complex.arg_le_pi _

lemma neg_pi_lt_atan2 (y x : ℝ) : -Real.pi < atan2 y x := Complex.neg_pi_lt_arg _

lemma rawAngleDeg_nonneg (a b c : ℝ × ℝ) : 0 ≤ rawAngleDeg a b c := abs_nonneg _

lemma rawAngleDeg_lt_360 (a b c : ℝ × ℝ) : rawAngleDeg a b c < 360 := by
  have hpi : (0:ℝ) < Real.pi := Real.pi_pos
  have h1 := atan2_le_pi (c.2 - b.2) (c.1 - b.1)
  have h2 := neg_pi_lt_atan2 (c.2 - b.2) (c.1 - b.1)
  have h3 := atan2_le_pi (a.2 - b.2) (a.1 - b.1)
  have h4 := neg_pi_lt_atan2 (a.2 - b.2) (a.1 - b.1)
  rw [rawAngleDeg, abs_div, abs_of_pos hpi, div_lt_iff₀ hpi, abs_mul]
  have habs : |atan2 (c.2 - b.2) (c.1 - b.1) - atan2 (a.2 - b.2) (a.1 - b.1)| < 2 * Real.pi := by
    rw [abs_sub_lt_iff]
    constructor <;> linarith
  have h180 : |(180:ℝ)| = 180 := by norm_num
  rw [h180]
  nlinarith

/-- The folded angle always lands in `[0, 180]`, degenerate inputs
included. -/
lemma calculate_angle_mem_Icc (a b c : ℝ × ℝ) :
    calculate_angle a b c ∈ Set.Icc (0:ℝ) 180 := by
  have h0 := rawAngleDeg_nonneg a b c
  have h1 := rawAngleDeg_lt_360 a b c
  rw [calculate_angle]
  split_ifs with h
  · exact ⟨by linarith, by linarith⟩
  · exact ⟨h0, by linarith [not_lt.mp h]⟩

lemma atan2_of_nonneg (x : ℝ) (hx : 0 ≤ x) : atan2 0 x = 0 := by
  have hz : (⟨x, 0⟩ : ℂ) = (x : ℂ) := by simp [Complex.ext_iff]
  rw [atan2, hz]
  exact Complex.arg_ofReal_of_nonneg hx

lemma detect_exercise_empty : detect_exercise [] = ("unknown", 0) := by
  simp [detect_exercise, detect_scores, exercise_patterns, scoreExercise, indicatorDefs,
    scoreStep, firstMax, maxStep, lookupAngle]
  norm_num

lemma detect_exercise_squatAngles : detect_exercise squatAngles = ("squat", 1) := by
  simp [squatAngles, detect_exercise, detect_scores, exercise_patterns, scoreExercise,
    indicatorDefs, scoreStep, firstMax, maxStep, lookupAngle]
  norm_num

lemma detect_scores_kneeHip :
    detect_scores kneeHipAngles = [("squat", 1), ("pushup", 0), ("lunge", 1), ("plank", 0)] := by
  simp [kneeHipAngles, detect_scores, exercise_patterns, scoreExercise, indicatorDefs,
    scoreStep, lookupAngle]
  norm_num

lemma detect_exercise_kneeHip : detect_exercise kneeHipAngles = ("squat", 1) := by
  rw [detect_exercise, detect_scores_kneeHip]
  simp [firstMax, maxStep]
  norm_num

lemma check_form_squatAngles :
    check_form_generic "squat" squatAngles = ["Ensure knees are aligned with your feet"] := by
  simp [squatAngles, check_form_generic, lookupConfig, exercise_database, angleFeedback,
    alignmentFeedback, lookupAngle, List.find?]
  norm_num

/-- The five indicator blocks accumulate exactly: the pass count of the
indicators whose kind occurs in the pattern and whose angle is present
and passes, and the check count of every indicator kind occurring in the
pattern — whether or not its angle is present. -/
lemma foldl_scoreStep (angles : AngleSet) (pattern : DetectionPattern)
    (l : List (String × String × (ℚ → Bool))) :
    ∀ s t : ℕ, l.foldl (scoreStep angles pattern) (s, t) =
      (s + (l.filter (fun d => pattern.primary_indicators.contains d.1 &&
              (lookupAngle angles d.2.1).any d.2.2)).length,
       t + (l.filter (fun d => pattern.primary_indicators.contains d.1)).length) := by
  induction l with
  | nil => intro s t; simp
  | cons d l ih =>
    intro s t
    rw [List.foldl_cons, scoreStep, List.filter_cons, List.filter_cons]
    cases hc : pattern.primary_indicators.contains d.1
    · rw [if_neg (by simp [hc]), if_neg (by simp [hc]), if_neg (by simp [hc]), ih]
    · cases hp : (lookupAngle angles d.2.1).any d.2.2
      · rw [if_pos (by simp [hc]), if_neg (by simp [hp]), if_neg (by simp [hc, hp]),
          if_pos (by simp [hc]), ih]
        simp only [List.length_cons, Prod.mk.injEq]
        exact ⟨trivial, by omega⟩
      · rw [if_pos (by simp [hc]), if_pos (by simp [hp]), if_pos (by simp [hc, hp]),
          if_pos (by simp [hc]), ih]
        simp only [List.length_cons, Prod.mk.injEq]
        constructor <;> omega

/-- Python's `max` with a key function returns the first element
attaining the maximum: the fold result splits the candidate list into a
strict prefix of strictly smaller scores, the winner, and a suffix of
scores at most the winner's. -/
lemma firstMax_spec (xs : List (String × ℚ)) :
    ∀ x : String × ℚ, ∃ l1 l2, x :: xs = l1 ++ firstMax x xs :: l2 ∧
      (∀ p ∈ l1, p.2 < (firstMax x xs).2) ∧
      ∀ p ∈ x :: xs, p.2 ≤ (firstMax x xs).2 := by
  induction xs with
  | nil =>
    intro x
    exact ⟨[], [], rfl, by simp, by simp [firstMax]⟩
  | cons y ys ih =>
    intro x
    have hstep : firstMax x (y :: ys) = firstMax (maxStep x y) ys := by
      rw [firstMax, List.foldl_cons, firstMax]
    by_cases h : y.2 > x.2
    · have hxy : maxStep x y = y := by rw [maxStep, if_pos h]
      obtain ⟨l1, l2, heq, hlt, hle⟩ := ih y
      rw [hstep, hxy]
      refine ⟨x :: l1, l2, ?_, ?_, ?_⟩
      · rw [List.cons_append, ← heq]
      · intro p hp
        rcases List.mem_cons.mp hp with hpx | hpmem
        · rw [hpx]
          exact lt_of_lt_of_le h (hle y (List.mem_cons_self y ys))
        · exact hlt p hpmem
      · intro p hp
        rcases List.mem_cons.mp hp with hpx | hpmem
        · rw [hpx]
          exact le_of_lt (lt_of_lt_of_le h (hle y (List.mem_cons_self y ys)))
        · exact hle p hpmem
    · have hxy : maxStep x y = x := by rw [maxStep, if_neg h]
      obtain ⟨l1, l2, heq, hlt, hle⟩ := ih x
      rw [hstep, hxy]
      rcases l1 with _ | ⟨a, l1t⟩
      · obtain ⟨hx, hys⟩ : x = firstMax x ys ∧ ys = l2 := by
          rw [List.nil_append] at heq
          exact ⟨List.head_eq_of_cons_eq heq, List.tail_eq_of_cons_eq heq⟩
        refine ⟨[], y :: ys, ?_, by simp, ?_⟩
        · rw [List.nil_append, ← hx]
        · intro p hp
          rcases List.mem_cons.mp hp with hpx | hpmem
          · rw [hpx]
            exact hle x (List.mem_cons_self x ys)
          · rcases List.mem_cons.mp hpmem with hpy | hpm
            · rw [hpy]
              exact le_trans (not_lt.mp h) (hle x (List.mem_cons_self x ys))
            · exact hle p (List.mem_cons_of_mem x hpm)
      · obtain ⟨hxa, hys⟩ : x = a ∧ ys = l1t ++ firstMax x ys :: l2 := by
          rw [List.cons_append] at heq
          exact ⟨List.head_eq_of_cons_eq heq, List.tail_eq_of_cons_eq heq⟩
        have hax : a.2 < (firstMax x ys).2 := hlt a (List.mem_cons_self a l1t)
        have hax2 : x.2 = a.2 := by rw [hxa]
        refine ⟨x :: y :: l1t, l2, ?_, ?_, ?_⟩
        · rw [List.cons_append, List.cons_append, ← hys]
        · intro p hp
          rcases List.mem_cons.mp hp with hpx | hpmem
          · rw [hpx, hax2]
            exact hax
          · rcases List.mem_cons.mp hpmem with hpy | hpm
            · rw [hpy]
              calc y.2 ≤ x.2 := not_lt.mp h
              _ = a.2 := by rw [hxa]
              _ < (firstMax x ys).2 := hax
            · exact hlt p (List.mem_cons_of_mem a hpm)
        · intro p hp
          rcases List.mem_cons.mp hp with hpx | hpmem
          · rw [hpx]
            exact hle x (List.mem_cons_self x ys)
          · rcases List.mem_cons.mp hpmem with hpy | hpm
            · rw [hpy]
              exact le_trans (not_lt.mp h) (hle x (List.mem_cons_self x ys))
            · exact hle p (List.mem_cons_of_mem x hpm)

/-- The fold winner is one of the candidates. -/
lemma firstMax_mem (x : String × ℚ) (xs : List (String × ℚ)) :
    firstMax x xs ∈ x :: xs := by
  obtain ⟨l1, l2, heq, _, _⟩ := firstMax_spec xs x
  rw [heq]
  exact List.mem_append_right l1 (List.mem_cons_self _ _)


lemma lookupAngle_append (d e : AngleSet) (k : String) :
    lookupAngle (d ++ e) k =
      match lookupAngle d k with
      | some v => some v
      | none => lookupAngle e k := by
  induction d with
  | nil => rw [List.nil_append, lookupAngle]
  | cons a d ih =>
    obtain ⟨ka, va⟩ := a
    rw [List.cons_append, lookupAngle, lookupAngle]
    by_cases hk : ka = k
    · rw [if_pos hk, if_pos hk]
    · rw [if_neg hk, if_neg hk, ih]

lemma lookupAngle_map_replace_ne (d : AngleSet) (k k' : String) (v : ℚ)
    (hk : k' ≠ k) :
    lookupAngle (d.map (fun p => if p.1 = k then (k, v) else p)) k' =
      lookupAngle d k' := by
  induction d with
  | nil => rw [List.map_nil]
  | cons a d ih =>
    obtain ⟨ka, va⟩ := a
    rw [List.map_cons]
    by_cases hak : ka = k
    · rw [if_pos (by simpa using hak), lookupAngle, lookupAngle,
        if_neg (fun he => hk he.symm), if_neg (fun he => hk (hak ▸ he).symm), ih]
    · rw [if_neg (by simpa using hak), lookupAngle, lookupAngle]
      by_cases ha : ka = k'
      · rw [if_pos ha, if_pos ha]
      · rw [if_neg ha, if_neg ha, ih]

lemma lookupAngle_map_replace_self (d : AngleSet) (k : String) (v : ℚ)
    (h : (lookupAngle d k).isSome) :
    lookupAngle (d.map (fun p => if p.1 = k then (k, v) else p)) k = some v := by
  induction d with
  | nil => rw [lookupAngle] at h; exact absurd h (by simp)
  | cons a d ih =>
    obtain ⟨ka, va⟩ := a
    rw [lookupAngle] at h
    rw [List.map_cons]
    by_cases hak : ka = k
    · rw [if_pos (by simpa using hak), lookupAngle, if_pos rfl]
    · rw [if_neg hak] at h
      rw [if_neg (by simpa using hak), lookupAngle, if_neg hak]
      exact ih h

/-- Looking up any key in the dictionary produced by a Python assignment
`d[k] = v`. -/
lemma lookupAngle_dictInsert (d : AngleSet) (k k' : String) (v : ℚ) :
    lookupAngle (dictInsert d k v) k' =
      if k' = k then some v else lookupAngle d k' := by
  rw [dictInsert]
  cases hfound : lookupAngle d k with
  | none =>
    rw [lookupAngle_append]
    by_cases hk : k' = k
    · rw [if_pos hk, hk, hfound, lookupAngle, lookupAngle, if_pos rfl]
    · rw [if_neg hk]
      cases hv : lookupAngle d k' with
      | none => rw [lookupAngle, lookupAngle, if_neg (fun he => hk he.symm)]
      | some w => rfl
  | some w =>
    by_cases hk : k' = k
    · rw [if_pos hk, hk]
      exact lookupAngle_map_replace_self d k v (by rw [hfound]; rfl)
    · rw [if_neg hk]
      exact lookupAngle_map_replace_ne d k k' v hk

/-- An averaging step writes only its own canonical key. -/
lemma lookupAngle_aggStep_ne (d : AngleSet) (j : String × String × String)
    (k : String) (hk : k ≠ j.2.2) :
    lookupAngle (aggStep d j) k = lookupAngle d k := by
  rw [aggStep]
  cases h1 : lookupAngle d j.1 with
  | none => rfl
  | some l =>
    cases h2 : lookupAngle d j.2.1 with
    | none => rfl
    | some r => rw [lookupAngle_dictInsert, if_neg hk]

/-- An averaging step assigns its canonical key the mean of the two side
angles exactly when both sides are present; otherwise, a previously
absent canonical key stays absent. -/
lemma lookupAngle_aggStep_self (d : AngleSet) (j : String × String × String)
    (hc : lookupAngle d j.2.2 = none) :
    lookupAngle (aggStep d j) j.2.2 =
      match lookupAngle d j.1, lookupAngle d j.2.1 with
      | some l, some r => some ((l + r) / 2)
      | _, _ => none := by
  rw [aggStep]
  cases h1 : lookupAngle d j.1 with
  | none => exact hc
  | some l =>
    cases h2 : lookupAngle d j.2.1 with
    | none => exact hc
    | some r => rw [lookupAngle_dictInsert, if_pos rfl]

lemma lookupAngle_aggStep_tuple_ne (d : AngleSet) (l r c k : String)
    (hk : k ≠ c) : lookupAngle (aggStep d (l, r, c)) k = lookupAngle d k :=
  lookupAngle_aggStep_ne d (l, r, c) k hk

lemma lookupAngle_aggStep_tuple_self (d : AngleSet) (l r c : String)
    (hc : lookupAngle d c = none) :
    lookupAngle (aggStep d (l, r, c)) c =
      match lookupAngle d l, lookupAngle d r with
      | some lv, some rv => some ((lv + rv) / 2)
      | _, _ => none :=
  lookupAngle_aggStep_self d (l, r, c) hc

/-- For a nonzero complex number the arguments of `z` and `-z` differ by
exactly `π` (in one direction or the other). -/
lemma arg_neg_sub_arg (z : ℂ) (hz : z ≠ 0) :
    Complex.arg (-z) - Complex.arg z = Real.pi ∨
    Complex.arg (-z) - Complex.arg z = -Real.pi := by
  rcases lt_trichotomy z.im 0 with h | h | h
  · left
    rw [Complex.arg_neg_eq_arg_add_pi_of_im_neg h]
    ring
  · have hre : z.re ≠ 0 := by
      intro h0
      exact hz (Complex.ext h0 h)
    rcases lt_or_gt_of_ne hre with hneg | hpos
    · right
      have h1 : Complex.arg z = Real.pi := Complex.arg_eq_pi_iff.mpr ⟨hneg, h⟩
      have h2 : Complex.arg (-z) = 0 := by
        have he : -z = ((-z.re : ℝ) : ℂ) := by
          apply Complex.ext
          · simp
          · simp [h]
        rw [he]
        exact Complex.arg_ofReal_of_nonneg (by linarith)
      rw [h1, h2]
      ring
    · left
      have h1 : Complex.arg z = 0 := by
        have he : z = ((z.re : ℝ) : ℂ) := by
          apply Complex.ext
          · simp
          · simp [h]
        rw [he]
        exact Complex.arg_ofReal_of_nonneg (le_of_lt hpos)
      have h2 : Complex.arg (-z) = Real.pi := by
        apply Complex.arg_eq_pi_iff.mpr
        constructor
        · simpa using hpos
        · simp [h]
      rw [h1, h2]
      ring
  · right
    rw [Complex.arg_neg_eq_arg_sub_pi_of_im_pos h]
    ring

/-- When `B` lies strictly between `A` and `C` on a line (the vectors
`BA` and `BC` are opposite rays), the folded angle is exactly 180°. -/
lemma calc_angle_opposite_rays (b d : ℝ × ℝ) (hd : d ≠ (0, 0)) (s t : ℝ)
    (hs : 0 < s) (ht : 0 < t) :
    calculate_angle (b.1 + s * d.1, b.2 + s * d.2) b
      (b.1 - t * d.1, b.2 - t * d.2) = 180 := by
  obtain ⟨b1, b2⟩ := b
  obtain ⟨d1, d2⟩ := d
  have hz : (⟨d1, d2⟩ : ℂ) ≠ 0 := by
    intro h0
    apply hd
    have h1 : d1 = 0 := congrArg Complex.re h0
    have h2 : d2 = 0 := congrArg Complex.im h0
    rw [h1, h2]
  have hA : atan2 ((b1 + s * d1, b2 + s * d2).2 - (b1, b2).2)
      ((b1 + s * d1, b2 + s * d2).1 - (b1, b2).1) = Complex.arg ⟨d1, d2⟩ := by
    have he : (⟨b1 + s * d1 - b1, b2 + s * d2 - b2⟩ : ℂ) = (s : ℂ) * ⟨d1, d2⟩ := by
      apply Complex.ext <;> (simp; try ring)
    rw [atan2]
    simp only
    rw [he]
    exact Complex.arg_real_mul _ hs
  have hC : atan2 ((b1 - t * d1, b2 - t * d2).2 - (b1, b2).2)
      ((b1 - t * d1, b2 - t * d2).1 - (b1, b2).1) = Complex.arg (-⟨d1, d2⟩) := by
    have he : (⟨b1 - t * d1 - b1, b2 - t * d2 - b2⟩ : ℂ) = (t : ℂ) * -⟨d1, d2⟩ := by
      apply Complex.ext <;> (simp; try ring)
    rw [atan2]
    simp only
    rw [he]
    exact Complex.arg_real_mul _ ht
  have hraw : rawAngleDeg (b1 + s * d1, b2 + s * d2) (b1, b2)
      (b1 - t * d1, b2 - t * d2) = 180 := by
    rw [rawAngleDeg, hA, hC]
    have hpi : Real.pi ≠ 0 := Real.pi_ne_zero
    rcases arg_neg_sub_arg _ hz with h | h
    · rw [h]
      have he : Real.pi * 180 / Real.pi = 180 := by field_simp
      rw [he]
      norm_num
    · rw [h]
      have he : -Real.pi * 180 / Real.pi = -180 := by
        field_simp
        ring
      rw [he]
      norm_num
  rw [calculate_angle, hraw]
  norm_num

lemma atan2_one_zero : atan2 1 0 = Real.pi / 2 := by
  have he : (⟨0, 1⟩ : ℂ) = Complex.I := by
    apply Complex.ext <;> simp
  rw [atan2, he, Complex.arg_I]

lemma atan2_zero_neg_one : atan2 0 (-1) = Real.pi := by
  have he : (⟨-1, 0⟩ : ℂ) = -1 := by
    apply Complex.ext <;> simp
  rw [atan2, he, Complex.arg_neg_one]

/-- At the coincident input `A = B = (0,0)`, `C = (1,0)` the code
silently returns `0` (numpy's `arctan2(0, 0)` is `0`). -/
lemma calc_angle_degenerate_eval : calculate_angle (0, 0) (0, 0) (1, 0) = 0 := by
  have hraw : rawAngleDeg (0, 0) (0, 0) (1, 0) = 0 := by
    rw [rawAngleDeg]
    norm_num
    rw [atan2_of_nonneg 1 (by norm_num), atan2_of_nonneg 0 (by norm_num)]
    simp
  rw [calculate_angle, hraw]
  norm_num

/-- The right-angle test input evaluates to exactly 90°. -/
lemma calc_angle_right_eval : calculate_angle (0, 0) (1, 0) (1, 1) = 90 := by
  have hraw : rawAngleDeg (0, 0) (1, 0) (1, 1) = 90 := by
    rw [rawAngleDeg]
    norm_num
    rw [atan2_one_zero, atan2_zero_neg_one]
    have he : (Real.pi / 2 - Real.pi) * 180 / Real.pi = -90 := by
      field_simp
      ring
    rw [he]
    norm_num
  rw [calculate_angle, hraw]
  norm_num

/-- The same-side collinear input `A = (1,0)`, `B = (0,0)`, `C = (2,0)`
evaluates to 0°, not 180°. -/
lemma calc_angle_collinear_same_side_eval : calculate_angle (1, 0) (0, 0) (2, 0) = 0 := by
  have hraw : rawAngleDeg (1, 0) (0, 0) (2, 0) = 0 := by
    rw [rawAngleDeg]
    norm_num
    rw [atan2_of_nonneg 2 (by norm_num), atan2_of_nonneg 1 (by norm_num)]
    simp
  rw [calculate_angle, hraw]
  norm_num

/-- Only `squat`, `pushup`, `lunge` and `plank` ever receive a score:
the other six patterns contain none of the five indicator kinds the
scorer evaluates, so their `total_checks` stays 0 and they are omitted
from `exercise_scores`. -/
lemma mem_detect_scores (angles : AngleSet) (p : String × ℚ)
    (hp : p ∈ detect_scores angles) :
    p.1 ∈ ["squat", "pushup", "lunge", "plank"] := by
  rw [detect_scores] at hp
  obtain ⟨ep, hmem, hsome⟩ := List.mem_filterMap.mp hp
  simp only [exercise_patterns, List.mem_cons, List.not_mem_nil, or_false] at hmem
  rcases hmem with rfl | rfl | rfl | rfl | rfl | rfl | rfl | rfl | rfl | rfl <;>
    simp [scoreExercise, indicatorDefs, scoreStep] at hsome <;>
    simp [← hsome]

lemma statusOf_eq_correct_iff (fb : List String) : statusOf fb = "correct" ↔ fb = [] := by
  rw [statusOf]
  split_ifs with hl
  · simp [List.length_eq_zero.mp hl]
  · constructor
    · intro habs
      exact absurd habs (by decide)
    · intro hfb
      rw [hfb] at hl
      simp at hl

/-- Claim C9: for the empty AngleSet the classifier always returns the
pair `("unknown", 0.0)`; the embedded scorer is a total function, so no
exception can arise. -/
theorem C9_empty_angleset : detect_exercise [] = ("unknown", 0) :=
  detect_exercise_empty

/-- Claim C10: for every AngleSet the classifier returns one of `squat`,
`pushup`, `lunge`, `plank` or `unknown` — the other six cataloged
exercises have no primary indicator among the five evaluated kinds, so
they never receive a score and are never selected. -/
theorem C10_reachable_exercises (angles : AngleSet) :
    (detect_exercise angles).1 ∈ ["squat", "pushup", "lunge", "plank", "unknown"] := by
  rw [detect_exercise]
  cases hd : detect_scores angles with
  | nil => simp
  | cons x xs =>
    simp only
    split_ifs with h
    · have hm : firstMax x xs ∈ detect_scores angles := by
        rw [hd]
        exact firstMax_mem x xs
      have hfour := mem_detect_scores angles _ hm
      simp at hfour ⊢
      tauto
    · simp

/-- Claim C5 counterexample: at the coincident input `A = B = (0,0)`,
`C = (1,0)` the Angle Calculator does not signal any error: it silently
returns the numeric value 0 (numpy's `arctan2(0,0)` is 0), exactly the
outcome the claim forbids. -/
theorem C5_counterexample : calculate_angle (0, 0) (0, 0) (1, 0) = 0 :=
  calc_angle_degenerate_eval

/-- Claim C5 amended: on degenerate inputs (A or C coinciding with the
vertex B) the Angle Calculator raises nothing and returns no sentinel —
it treats the zero-length vector as having direction angle 0 and
returns an ordinary numeric value in `[0, 180]`. -/
theorem C5_amended_degenerate_numeric (a b c : ℝ × ℝ) (h : a = b ∨ c = b) :
    calculate_angle a b c ∈ Set.Icc (0:ℝ) 180 :=
  calculate_angle_mem_Icc a b c

/-- Witness for C5 amended at the degenerate input `A = B = (2,3)`,
`C = (5,7)`. -/
theorem C5_amended_witness :
    calculate_angle (2, 3) (2, 3) (5, 7) ∈ Set.Icc (0:ℝ) 180 :=
  C5_amended_degenerate_numeric (2, 3) (2, 3) (5, 7) (Or.inl rfl)

/-- Claim C6 counterexample: `A = (1,0)`, `B = (0,0)`, `C = (2,0)` are
three collinear points, yet the Angle Calculator returns 0, far outside
the claimed 175–185 band (the claim holds only when B lies strictly
between A and C; with A and C on the same side of B the angle is 0). -/
theorem C6_counterexample :
    calculate_angle (1, 0) (0, 0) (2, 0) = 0 ∧ ¬ ((175:ℝ) ≤ 0) :=
  ⟨calc_angle_collinear_same_side_eval, by norm_num⟩

/-- Claim C6 amended: the Angle Calculator stays in `[0, 180]` on every
input (degenerate ones included); the right-angle example
`A=(0,0), B=(1,0), C=(1,1)` lands in 85–95 (it is exactly 90); and for
collinear points with B strictly between A and C (A and C on opposite
rays from B) the value is exactly 180, inside 175–185. -/
theorem C6_amended_angle_ranges :
    (∀ a b c : ℝ × ℝ, calculate_angle a b c ∈ Set.Icc (0:ℝ) 180) ∧
    calculate_angle (0, 0) (1, 0) (1, 1) ∈ Set.Icc (85:ℝ) 95 ∧
    (∀ b d : ℝ × ℝ, d ≠ (0, 0) → ∀ s t : ℝ, 0 < s → 0 < t →
      calculate_angle (b.1 + s * d.1, b.2 + s * d.2) b
        (b.1 - t * d.1, b.2 - t * d.2) = 180) :=
  ⟨calculate_angle_mem_Icc,
   by rw [calc_angle_right_eval]; constructor <;> norm_num,
   fun b d hd s t hs ht => calc_angle_opposite_rays b d hd s t hs ht⟩

/-- Witness for C6 amended: the opposite-rays clause applied at
`B = (0,0)`, direction `(1,0)`, `s = t = 1`. -/
theorem C6_amended_witness :
    ((1:ℝ), (0:ℝ)) ≠ ((0:ℝ), (0:ℝ)) ∧ (0:ℝ) < 1 ∧
    calculate_angle ((0:ℝ) + 1 * 1, (0:ℝ) + 1 * 0) (0, 0)
      ((0:ℝ) - 1 * 1, (0:ℝ) - 1 * 0) = 180 :=
  ⟨by simp, one_pos,
   C6_amended_angle_ranges.2.2 (0, 0) (1, 0) (by simp) 1 1 one_pos one_pos⟩

/-- Claim C7 counterexample: for the unknown key `"yoga"` the Form
Checker does return the single "not in database" feedback entry and no
exception is possible, but the status the orchestrator's rule assigns
to that feedback is `"incorrect"`, not the claimed `"unrecognized"`
(the code never produces an `"unrecognized"` status). -/
theorem C7_counterexample :
    check_form_generic "yoga" [] = ["Exercise not in database"] ∧
    statusOf (check_form_generic "yoga" []) = "incorrect" ∧
    "incorrect" ≠ "unrecognized" := by
  have h : lookupConfig "yoga" = none := by rfl
  have hfb : check_form_generic "yoga" [] = ["Exercise not in database"] := by
    rw [check_form_generic, h]
  exact ⟨hfb, by rw [hfb]; rfl, by decide⟩

/-- Claim C7 amended: for every exercise key absent from the Catalog and
every AngleSet, the Form Checker returns exactly one feedback entry
("Exercise not in database") and raises nothing; under the
orchestrator's status rule that non-empty feedback yields status
`"incorrect"` (the code has no `"unrecognized"` status). -/
theorem C7_amended_unknown_exercise (exercise : String) (angles : AngleSet)
    (h : lookupConfig exercise = none) :
    check_form_generic exercise angles = ["Exercise not in database"] ∧
    statusOf (check_form_generic exercise angles) = "incorrect" := by
  have hfb : check_form_generic exercise angles = ["Exercise not in database"] := by
    rw [check_form_generic, h]
  exact ⟨hfb, by rw [hfb]; rfl⟩

/-- Witness for C7 amended at the unknown key `"jumping_jack"` with the
reference squat angles. -/
theorem C7_amended_witness :
    lookupConfig "jumping_jack" = none ∧
    check_form_generic "jumping_jack" squatAngles = ["Exercise not in database"] ∧
    statusOf (check_form_generic "jumping_jack" squatAngles) = "incorrect" := by
  have h : lookupConfig "jumping_jack" = none := by rfl
  exact ⟨h, (C7_amended_unknown_exercise "jumping_jack" squatAngles h).1,
    (C7_amended_unknown_exercise "jumping_jack" squatAngles h).2⟩

/-- Claim C2 counterexample: on `squat` with
`{knee_angle: 90, hip_angle: 70, back_angle: 170}` the Form Checker's
feedback is NOT empty and the status is NOT `"correct"`: the
`knee_alignment` alignment check unconditionally appends
"Ensure knees are aligned with your feet". -/
theorem C2_counterexample :
    ¬ (check_form_generic "squat" squatAngles = [] ∧
       (analyze_pose_enhanced (some squatAngles)).status = "correct") := by
  intro h
  rw [check_form_squatAngles] at h
  simp at h

/-- Claim C2 amended: on `squat` with
`{knee_angle: 90, hip_angle: 70, back_angle: 170}` every threshold and
optimal-difference test passes, but the unconditional `knee_alignment`
reminder fires, so the feedback is exactly
["Ensure knees are aligned with your feet"] and the status is
`"incorrect"`. -/
theorem C2_amended_squat_form :
    check_form_generic "squat" squatAngles = ["Ensure knees are aligned with your feet"] ∧
    (analyze_pose_enhanced (some squatAngles)).status = "incorrect" := by
  refine ⟨check_form_squatAngles, ?_⟩
  simp [analyze_pose_enhanced, detect_exercise_squatAngles, check_form_squatAngles, statusOf]

/-- Claim C4 counterexample: with landmarks present but an empty angle
dictionary the classification is `"unknown"`, yet the status is
`"incorrect"` — the claimed `"unrecognized"` status is never produced
by the code. -/
theorem C4_counterexample :
    (analyze_pose_enhanced (some [])).exercise = "unknown" ∧
    (analyze_pose_enhanced (some [])).status = "incorrect" ∧
    "incorrect" ≠ "unrecognized" := by
  refine ⟨?_, ?_, by decide⟩ <;>
    simp [analyze_pose_enhanced, detect_exercise_empty, statusOf]

/-- Claim C4 amended: for every analysis with landmarks present, the
status is `"correct"` iff the feedback list is empty (which forces a
recognized exercise); when the classification is `"unknown"` the
feedback is the single "not recognized" message and the status is
`"incorrect"` — never `"unrecognized"`. -/
theorem C4_amended_status_rule (angles : AngleSet) :
    ((analyze_pose_enhanced (some angles)).status = "correct" ↔
      (analyze_pose_enhanced (some angles)).feedback = []) ∧
    ((analyze_pose_enhanced (some angles)).status = "correct" →
      (analyze_pose_enhanced (some angles)).exercise ≠ "unknown") ∧
    ((analyze_pose_enhanced (some angles)).exercise = "unknown" →
      (analyze_pose_enhanced (some angles)).status = "incorrect" ∧
      (analyze_pose_enhanced (some angles)).feedback =
        ["Exercise not recognized. Try a different position or exercise."]) := by
  rw [analyze_pose_enhanced]
  by_cases h : (detect_exercise angles).1 = "unknown"
  · simp [h, statusOf]
  · simp only [h]
    simp [statusOf_eq_correct_iff, h]

/-- Witness for C4 amended at the empty angle dictionary, where the
classification is `"unknown"`. -/
theorem C4_amended_witness :
    (analyze_pose_enhanced (some ([] : AngleSet))).status = "incorrect" ∧
    (analyze_pose_enhanced (some ([] : AngleSet))).feedback =
      ["Exercise not recognized. Try a different position or exercise."] :=
  (C4_amended_status_rule []).2.2
    (by simp [analyze_pose_enhanced, detect_exercise_empty])

/-- Claim C1 counterexample: with the AngleSet `{knee_angle: 90}` the
code gives `squat` the score 1/2 — the absent `hip_angle` indicator is
counted in the denominator (as a failure) — while the claimed formula
(absence excluded from both numerator and denominator) gives 1. -/
theorem C1_counterexample :
    lookupAngle (detect_scores [("knee_angle", 90)]) "squat" = some (1/2) ∧
    specScoreExercise [("knee_angle", 90)]
      ⟨["knee_bend", "hip_drop"], ["vertical_movement", "feet_shoulder_width"]⟩ = 1 ∧
    (1/2 : ℚ) ≠ 1 := by
  refine ⟨?_, ?_, by norm_num⟩
  · simp [detect_scores, exercise_patterns, scoreExercise, indicatorDefs, scoreStep,
      lookupAngle]
    norm_num
  · simp [specScoreExercise, indicatorDefs, lookupAngle]
    norm_num

/-- Claim C1 amended: the code's per-exercise accumulator is
(passed-indicators, counted-indicators) where an indicator whose kind
occurs in the pattern is counted in the denominator even when its
required angle is absent (absence behaves as a failure, not an
exclusion); only the five kinds in `indicatorDefs` are ever evaluated,
and `detect_scores` divides the two counts when the denominator is
positive and omits the exercise entirely otherwise. -/
theorem C1_amended_score_formula (angles : AngleSet) (pattern : DetectionPattern) :
    scoreExercise angles pattern =
      ((indicatorDefs.filter (fun d => pattern.primary_indicators.contains d.1 &&
          (lookupAngle angles d.2.1).any d.2.2)).length,
       (indicatorDefs.filter (fun d => pattern.primary_indicators.contains d.1)).length) := by
  rw [scoreExercise, foldl_scoreStep]
  simp

/-- Claim C3 counterexample: with only `left_knee_angle = 80` present,
the aggregator leaves the canonical `knee_angle` absent — it does NOT
fall back to the single available side's value as the claim states. -/
theorem C3_counterexample :
    lookupAngle (aggregate_bilateral leftKneeOnly) "knee_angle" = none ∧
    (none : Option ℚ) ≠ some 80 := by
  constructor
  · rfl
  · simp

/-- Claim C3 amended: for each of the five bilateral joint types, when
the canonical key is not already present, the aggregator assigns it the
arithmetic mean of the two side angles iff BOTH sides are present; when
only one side (or neither) is present the canonical key stays absent —
the single available side is not used. -/
theorem C3_amended_bilateral (angles : AngleSet) (j : String × String × String)
    (hj : j ∈ bilateralJoints) (hc : lookupAngle angles j.2.2 = none) :
    lookupAngle (aggregate_bilateral angles) j.2.2 =
      match lookupAngle angles j.1, lookupAngle angles j.2.1 with
      | some l, some r => some ((l + r) / 2)
      | _, _ => none := by
  simp only [bilateralJoints, List.mem_cons, List.not_mem_nil, or_false] at hj
  rw [aggregate_bilateral, bilateralJoints]
  simp only [List.foldl_cons, List.foldl_nil]
  rcases hj with rfl | rfl | rfl | rfl | rfl <;>
    simp [lookupAngle_aggStep_tuple_ne, lookupAngle_aggStep_tuple_self, hc]

/-- Witness for C3 amended: both knee sides present (80 and 100) yield
canonical `knee_angle` 90. -/
theorem C3_amended_witness :
    ("left_knee_angle", "right_knee_angle", "knee_angle") ∈ bilateralJoints ∧
    lookupAngle [(("left_knee_angle" : String), (80 : ℚ)), ("right_knee_angle", 100)]
      "knee_angle" = none ∧
    lookupAngle (aggregate_bilateral
      [(("left_knee_angle" : String), (80 : ℚ)), ("right_knee_angle", 100)]) "knee_angle"
      = some 90 := by
  refine ⟨by decide, by rfl, ?_⟩
  have h := C3_amended_bilateral
    [(("left_knee_angle" : String), (80 : ℚ)), ("right_knee_angle", 100)]
    ("left_knee_angle", "right_knee_angle", "knee_angle") (by decide) (by rfl)
  rw [h]
  simp [lookupAngle]
  norm_num

/-- Claim C8 counterexample: on `{knee_angle: 90, hip_angle: 70}` both
`squat` and `lunge` score 1.0 (the maximum, above the 0.6 floor), and
`"lunge"` is lexicographically smaller than `"squat"`, yet the
classifier selects `"squat"` — Python's `max` keeps the first maximal
entry in pattern-declaration order, not the lexicographically least. -/
theorem C8_counterexample :
    ("squat", (1:ℚ)) ∈ detect_scores kneeHipAngles ∧
    ("lunge", (1:ℚ)) ∈ detect_scores kneeHipAngles ∧
    "lunge" < "squat" ∧
    detect_exercise kneeHipAngles = ("squat", 1) := by
  refine ⟨?_, ?_, by rw [String.lt_iff_toList_lt]; decide, detect_exercise_kneeHip⟩
  · rw [detect_scores_kneeHip]
    simp
  · rw [detect_scores_kneeHip]
    simp

/-- Claim C8 amended: whenever the classifier returns an exercise above
the 0.6 confidence floor, that exercise is the FIRST entry of the score
list (which follows `exercise_patterns` declaration order) attaining
the maximum score: every strictly earlier entry scores strictly less
and no entry scores more.  Ties are broken by declaration order
(squat, pushup, lunge, bicep_curl, plank, …), not lexicographically. -/
theorem C8_amended_declaration_order_tiebreak (angles : AngleSet) (k : String) (v : ℚ)
    (h : detect_exercise angles = (k, v)) (hv : (0.6:ℚ) < v) :
    ∃ l1 l2, detect_scores angles = l1 ++ (k, v) :: l2 ∧
      (∀ p ∈ l1, p.2 < v) ∧ ∀ p ∈ detect_scores angles, p.2 ≤ v := by
  rw [detect_exercise] at h
  cases hd : detect_scores angles with
  | nil =>
    rw [hd] at h
    simp only at h
    obtain ⟨hk, hv0⟩ := Prod.mk.injEq _ _ _ _ ▸ h
    rw [← hv0] at hv
    norm_num at hv
  | cons x xs =>
    rw [hd] at h
    simp only at h
    by_cases hb : (firstMax x xs).2 > 0.6
    · rw [if_pos hb] at h
      obtain ⟨l1, l2, heq, hlt, hle⟩ := firstMax_spec xs x
      rw [h] at heq hlt hle
      exact ⟨l1, l2, heq, hlt, hle⟩
    · rw [if_neg hb] at h
      obtain ⟨hk, hv0⟩ := Prod.mk.injEq _ _ _ _ ▸ h
      rw [← hv0] at hv
      norm_num at hv

/-- Witness for C8 amended at the squat/lunge tie input. -/
theorem C8_amended_witness :
    detect_exercise kneeHipAngles = ("squat", 1) ∧ (0.6:ℚ) < 1 ∧
    ∃ l1 l2, detect_scores kneeHipAngles = l1 ++ ("squat", (1:ℚ)) :: l2 ∧
      (∀ p ∈ l1, p.2 < 1) ∧ ∀ p ∈ detect_scores kneeHipAngles, p.2 ≤ 1 :=
  ⟨detect_exercise_kneeHip, by norm_num,
   C8_amended_declaration_order_tiebreak kneeHipAngles "squat" 1
     detect_exercise_kneeHip (by norm_num)⟩
